import Mathlib

/-!
# Verification of `serverless_musings` (arntopia.py, manageFleetDNS.py)

A shallow embedding of the two Python source files and proofs about them.

* `arntopia.py` — `breakDownARN` parses an ARN-like string into positional
  fields (Python dict modelled as the structure `ARNFields`; the `try`/`except`
  around positional indexing modelled by stopping the assignment sequence at
  the first out-of-bounds access, keeping the fields assigned so far).
* `manageFleetDNS.py` — `lambda_handler` and its helpers. External AWS calls
  are modelled by a `Collab` record of collaborator behaviours returning
  `Except String _` (an `error` is a raised exception of the Python SDK call);
  each call is also recorded in a trace of `AwsCall`s so that theorems can
  speak about which calls the handler attempted and with which arguments.
  Python exceptions propagate as the `Except` error branch; the
  `try`/`except`/`finally: return ""` of the handler catches everything and
  returns `""`.
-/

/-- The dict returned by `breakDownARN` (arntopia.py line 17-26):
all fields start as `None` except `ARN` which is the raw input. -/
structure ARNFields where
  ARN : String
  Partition : Option String
  Service : Option String
  Region : Option String
  AccountId : Option String
  ResourceType : Option String
  Resource : Option String
  Qualifier : Option String
deriving DecidableEq, Repr

/-- Python `str.replace(a, b)` for single characters: replace every
occurrence of `a` by `b` (arntopia.py line 28, `arn.replace("/", ":")`). -/
def pyReplace (a b : Char) (cs : List Char) : List Char :=
  cs.map (fun c => if c = a then b else c)

/-- Python `str.split(sep)` for a single-character separator, on the
character list of the string: always returns at least one (possibly empty)
segment, e.g. `"".split(":") = [""]` and `":".split(":") = ["", ""]`
(arntopia.py line 29, `arn.split(":")`). -/
def pySplit (sep : Char) : List Char → List (List Char)
  | [] => [[]]
  | c :: rest =>
    match pySplit sep rest with
    | [] => [[]]
    | s :: ss => if c = sep then [] :: s :: ss else (c :: s) :: ss

/-- `arn.replace("/", ":").split(":")` as a list of segment strings
(arntopia.py lines 28-29). -/
def arnSegments (arn : String) : List String :=
  (pySplit ':' (pyReplace '/' ':' arn.data)).map (fun cs => String.mk cs)

/-- The `try` block of `breakDownARN` (arntopia.py lines 35-53): positional
assignments `retVal[...] = arnParts[i]` in order; an index past the end of
the list raises, the bare `except: pass` keeps the assignments made so far. -/
def tryFill (arnParts : List String) (r : ARNFields) : ARNFields :=
  match arnParts.get? 1 with
  | none => r
  | some partitionVal =>
  let r := { r with Partition := some partitionVal }
  match arnParts.get? 2 with
  | none => r
  | some serviceVal =>
  let r := { r with Service := some serviceVal }
  match arnParts.get? 3 with
  | none => r
  | some regionVal =>
  let r := { r with Region := some regionVal }
  match arnParts.get? 4 with
  | none => r
  | some accountIdVal =>
  let r := { r with AccountId := some accountIdVal }
  if arnParts.length = 6 then
    -- older style ARN: `retVal["Resource"] = arnParts[5]` (always in bounds
    -- here); the following `retVal["Qualifier"] = arnParts[7]` raises and is
    -- swallowed, so Qualifier stays as it was.
    match arnParts.get? 5 with
    | none => r
    | some resourceVal => { r with Resource := some resourceVal }
  else
    match arnParts.get? 5 with
    | none => r
    | some resourceTypeVal =>
    let r := { r with ResourceType := some resourceTypeVal }
    match arnParts.get? 6 with
    | none => r
    | some resourceVal =>
    let r := { r with Resource := some resourceVal }
    match arnParts.get? 7 with
    | none => r
    | some qualifierVal => { r with Qualifier := some qualifierVal }

/-- `breakDownARN` (arntopia.py lines 16-62): initialize the return dict,
normalize separators and split, run the `try` block of positional
assignments, then apply the autoscaling-group override
(`Qualifier = arnParts[-1]`, the last segment; the segment list of a split
is never empty, so the Python negative index is the last element, `getLast?`). -/
def breakDownARN (arn : String) : ARNFields :=
  let retVal : ARNFields :=
    { ARN := arn, Partition := none, Service := none, Region := none,
      AccountId := none, ResourceType := none, Resource := none,
      Qualifier := none }
  let arnParts := arnSegments arn
  let retVal := tryFill arnParts retVal
  if retVal.Service = some "autoscaling" ∧
      retVal.ResourceType = some "autoScalingGroup" then
    { retVal with Qualifier := arnParts.getLast? }
  else
    retVal

/-! ## manageFleetDNS.py -/

/-- One entry of the `ResourceRecords` list of a record set: `{"Value": ip}`
(manageFleetDNS.py lines 106, 117). -/
structure ResourceRecord where
  Value : String
deriving DecidableEq, Repr

/-- One Route53 resource record set as returned by
`list_resource_record_sets` (manageFleetDNS.py lines 100-102). The source
reads the keys `Name`, `Type` and (on a matched set) `ResourceRecords`.
`Type` is a Lean keyword, so the `Type` key is the field `rsType`. -/
structure RecordSet where
  Name : String
  rsType : String
  ResourceRecords : List ResourceRecord
deriving DecidableEq, Repr

/-- The environment variables loaded at module scope
(manageFleetDNS.py lines 164-166). -/
structure Env where
  route53ZoneId : String
  hostRecordToMaintain : String
  autoscaleGroupName : String
deriving DecidableEq, Repr

/-- One external AWS call attempted by the handler, with its arguments:
the trace of these is what the theorems observe. -/
inductive AwsCall where
  /-- `ec2.Instance(instanceId); instance.load()` (line 75-79) -/
  | getIP (instanceId : String)
  /-- `route53.list_resource_record_sets(HostedZoneId=zoneId)` (line 97) -/
  | listRecords (zoneId : String)
  /-- `route53.change_resource_record_sets` UPSERT of the record set
  `(Name, Type A, TTL 300, values)` (lines 126-137) -/
  | changeRecords (zoneId : String) (name : String) (values : List String)
  /-- `autoscaling.describe_auto_scaling_groups` (lines 147-149) -/
  | describeGroup (groupName : String)
  /-- `autoscaling.complete_lifecycle_action(..., CONTINUE, ...)` (lines 85-90) -/
  | completeLifecycle (hookName : String) (groupName : String) (instanceId : String)
deriving DecidableEq, Repr

/-- The behaviour of the external collaborators for one invocation: each
field gives, per argument, either the result of the call (`ok`) or a raised
exception (`error`, carrying the Python exception text). -/
structure Collab where
  /-- public IP returned by the EC2 instance lookup -/
  instanceIP : String → Except String String
  /-- `ResourceRecordSets` of the zone returned by `list_resource_record_sets` -/
  recordSets : String → Except String (List RecordSet)
  /-- outcome of `change_resource_record_sets` (zone, record name, values) -/
  changeResult : String → String → List String → Except String Unit
  /-- `Instances` ids of `AutoScalingGroups[0]` from
  `describe_auto_scaling_groups` (an `error` also covers the raise from
  `response["AutoScalingGroups"][0]` when the group is unknown) -/
  groupInstances : String → Except String (List String)
  /-- outcome of `complete_lifecycle_action` (hook, group, instance) -/
  completeResult : String → String → String → Except String Unit

/-- A step of the embedded handler: result or raised exception, together
with the trace of external calls attempted so far. -/
abbrev Step (α : Type) := Except String α × List AwsCall

/-- `getIPofInstance` (manageFleetDNS.py lines 75-79): one EC2 lookup. -/
def getIPofInstance (c : Collab) (instanceId : String) (tr : List AwsCall) :
    Step String :=
  (c.instanceIP instanceId, tr ++ [AwsCall.getIP instanceId])

/-- `resumeAutoscaleTransition` (lines 83-91): one
`complete_lifecycle_action` call, returning `True` on success. -/
def resumeAutoscaleTransition (c : Collab)
    (autoscaleGroupName autoscaleLifecycleHookName instanceId : String)
    (tr : List AwsCall) : Step Bool :=
  let tr := tr ++ [AwsCall.completeLifecycle autoscaleLifecycleHookName
      autoscaleGroupName instanceId]
  match c.completeResult autoscaleLifecycleHookName autoscaleGroupName
      instanceId with
  | .ok _ => (.ok true, tr)
  | .error e => (.error e, tr)

/-- The body of `getIpAddressesFromRoute53Entry` after the
`list_resource_record_sets` response (lines 99-108). `resourceRecordSet` is
initialized to the empty dict `{}`; the first loop assigns only the (unused)
variable `currentResourceRecordSet`; the second loop iterates
`resourceRecordSet`, which is still the empty dict, so it appends nothing. -/
def getIpAddressesFromRoute53Entry (currentRecordSets : List RecordSet)
    (hostRecordToMaintain : String) : List String :=
  let resourceRecordSet : List ResourceRecord := []
  let _currentResourceRecordSet : Option RecordSet :=
    currentRecordSets.foldl
      (fun acc recordSet =>
        if recordSet.Name = hostRecordToMaintain ∧ recordSet.rsType = "A"
        then some recordSet else acc)
      none
  let ipAddresses : List String :=
    resourceRecordSet.foldl (fun acc resourceRecord => acc ++ [resourceRecord.Value]) []
  ipAddresses

/-- `getIpAddressesFromRoute53Entry` with its `list_resource_record_sets`
call (lines 95-108): the call may raise; on success the pure body above
computes the returned list. -/
def getIpAddressesFromRoute53EntryCall (c : Collab)
    (route53ZoneId hostRecordToMaintain : String) (tr : List AwsCall) :
    Step (List String) :=
  let tr := tr ++ [AwsCall.listRecords route53ZoneId]
  match c.recordSets route53ZoneId with
  | .error e => (.error e, tr)
  | .ok sets => (.ok (getIpAddressesFromRoute53Entry sets hostRecordToMaintain), tr)

/-- `setDNSRecord` (lines 112-137): wrap each address as `{"Value": ip}`,
then UPSERT the whole record set (Name, Type A, TTL 300) in one
`change_resource_record_sets` call, which may raise. -/
def setDNSRecord (c : Collab) (route53ZoneId hostRecordToMaintain : String)
    (ipAddresses : List String) (tr : List AwsCall) : Step Unit :=
  let resourceRecords : List ResourceRecord :=
    ipAddresses.foldl (fun acc ipAddress => acc ++ [⟨ipAddress⟩]) []
  let tr := tr ++ [AwsCall.changeRecords route53ZoneId hostRecordToMaintain
      (resourceRecords.map ResourceRecord.Value)]
  (c.changeResult route53ZoneId hostRecordToMaintain
      (resourceRecords.map ResourceRecord.Value), tr)

/-- The loop of `baselineIpAddressesInDNS` collecting
`getIPofInstance(instance["InstanceId"])` for each fleet instance
(lines 151-154); a raised lookup aborts the loop. -/
def collectIPs (c : Collab) : List String → List String → List AwsCall →
    Step (List String)
  | [], ipAddresses, tr => (.ok ipAddresses, tr)
  | instId :: rest, ipAddresses, tr =>
    match getIPofInstance c instId tr with
    | (.error e, tr) => (.error e, tr)
    | (.ok ip, tr) => collectIPs c rest (ipAddresses ++ [ip]) tr

/-- `baselineIpAddressesInDNS` (lines 141-158): describe the autoscaling
group, collect the public IP of every instance in it, write the whole list
as the record set, return `""`. -/
def baselineIpAddressesInDNS (c : Collab)
    (route53ZoneId hostRecordToMaintain autoscaleGroupName : String)
    (tr : List AwsCall) : Step String :=
  let tr := tr ++ [AwsCall.describeGroup autoscaleGroupName]
  match c.groupInstances autoscaleGroupName with
  | .error e => (.error e, tr)
  | .ok instanceIds =>
    match collectIPs c instanceIds [] tr with
    | (.error e, tr) => (.error e, tr)
    | (.ok ipAddresses, tr) =>
      match setDNSRecord c route53ZoneId hostRecordToMaintain ipAddresses tr with
      | (.error e, tr) => (.error e, tr)
      | (.ok _, tr) => (.ok "", tr)

/-- Python `list.remove(x)`: delete the first occurrence of `x`, raising
`ValueError` when `x` is absent (used at line 194,
`ipAddresses.remove(newInstancePublicIP)`). -/
def pyRemove (x : String) : List String → Except String (List String)
  | [] => .error "ValueError: list.remove(x): x not in list"
  | y :: ys =>
    if y = x then .ok ys
    else
      match pyRemove x ys with
      | .ok ys2 => .ok (y :: ys2)
      | .error e => .error e

/-- The `detail` payload of the trigger event: a dict whose keys may be absent
(`none`); a lookup of an absent key raises `KeyError`. -/
structure EventDetail where
  EC2InstanceId : Option String
  LifecycleTransition : Option String
  LifecycleHookName : Option String
deriving DecidableEq, Repr

/-- The trigger event: a dict with possibly-absent keys `source`,
`detail-type` (field `detailType`) and `detail`. -/
structure Event where
  source : Option String
  detailType : Option String
  detail : Option EventDetail
deriving DecidableEq, Repr

/-- The condition of `lambda_handler` (lines 175-178), with the Python
left-to-right short-circuit evaluation: `"source" in event` never raises;
once `event["source"] == "aws.autoscaling"` holds, the lookups
`event["detail-type"]` and `event["detail"]` raise `KeyError` when the key
is absent. -/
def checkRecognized (e : Event) : Except String Bool :=
  match e.source with
  | none => .ok false
  | some s =>
    if s = "aws.autoscaling" then
      match e.detailType with
      | none => .error "KeyError: detail-type"
      | some dt =>
        if dt = "EC2 Instance-launch Lifecycle Action" then
          match e.detail with
          | none => .error "KeyError: detail"
          | some d => .ok d.EC2InstanceId.isSome
        else .ok false
    else .ok false

/-- The recognized event shape, as a Boolean: source `aws.autoscaling`,
detail-type `EC2 Instance-launch Lifecycle Action`, and a detail payload
carrying `EC2InstanceId`. -/
def recognizedShapeB (e : Event) : Bool :=
  e.source = some "aws.autoscaling" &&
  e.detailType = some "EC2 Instance-launch Lifecycle Action" &&
  (e.detail.bind EventDetail.EC2InstanceId).isSome

/-- The `try` block of `lambda_handler` (lines 174-205). On a recognized
event: read the detail fields (absent `LifecycleTransition` or
`LifecycleHookName` raises `KeyError`), resolve the public IP of the instance,
then branch on the transition — LAUNCHING reads the current addresses,
appends the new IP and writes; TERMINATING reads, `remove`s the IP
(raising `ValueError` on a miss) and writes; anything else only logs —
and, when no exception was raised, resume the autoscale transition
(line 201). Otherwise run the baseline rebuild (line 204). -/
def tryBody (env : Env) (c : Collab) (e : Event) (tr : List AwsCall) :
    Step Unit :=
  match checkRecognized e with
  | .error err => (.error err, tr)
  | .ok true =>
    match e.detail with
    | none => (.error "unreachable: detail present when recognized", tr)
    | some d =>
      match d.EC2InstanceId with
      | none => (.error "unreachable: EC2InstanceId present when recognized", tr)
      | some instanceId =>
        match d.LifecycleTransition with
        | none => (.error "KeyError: LifecycleTransition", tr)
        | some lifecycleTransition =>
          match d.LifecycleHookName with
          | none => (.error "KeyError: LifecycleHookName", tr)
          | some autoscaleLifecycleHookName =>
            match getIPofInstance c instanceId tr with
            | (.error err, tr) => (.error err, tr)
            | (.ok newInstancePublicIP, tr) =>
              let branch : Step Unit :=
                if lifecycleTransition = "autoscaling:EC2_INSTANCE_LAUNCHING" then
                  match getIpAddressesFromRoute53EntryCall c env.route53ZoneId
                      env.hostRecordToMaintain tr with
                  | (.error err, tr) => (.error err, tr)
                  | (.ok ipAddresses, tr) =>
                    let ipAddresses := ipAddresses ++ [newInstancePublicIP]
                    setDNSRecord c env.route53ZoneId env.hostRecordToMaintain
                      ipAddresses tr
                else if lifecycleTransition = "autoscaling:EC2_INSTANCE_TERMINATING" then
                  match getIpAddressesFromRoute53EntryCall c env.route53ZoneId
                      env.hostRecordToMaintain tr with
                  | (.error err, tr) => (.error err, tr)
                  | (.ok ipAddresses, tr) =>
                    match pyRemove newInstancePublicIP ipAddresses with
                    | .error err => (.error err, tr)
                    | .ok ipAddresses =>
                      setDNSRecord c env.route53ZoneId env.hostRecordToMaintain
                        ipAddresses tr
                else
                  -- `print("Error: No valid lifecycle transition identified.")`
                  (.ok (), tr)
              match branch with
              | (.error err, tr) => (.error err, tr)
              | (.ok _, tr) =>
                match resumeAutoscaleTransition c env.autoscaleGroupName
                    autoscaleLifecycleHookName instanceId tr with
                | (.error err, tr) => (.error err, tr)
                | (.ok _, tr) => (.ok (), tr)
  | .ok false =>
    match baselineIpAddressesInDNS c env.route53ZoneId env.hostRecordToMaintain
        env.autoscaleGroupName tr with
    | (.error err, tr) => (.error err, tr)
    | (.ok _, tr) => (.ok (), tr)

/-- `lambda_handler` (lines 172-211): run the `try` body; the bare
`except Exception` only prints, and `finally: return ""` makes every path —
success or caught exception — return the empty string. The second component
is the trace of external calls the invocation attempted. -/
def lambda_handler (env : Env) (c : Collab) (e : Event) :
    String × List AwsCall :=
  let r := tryBody env c e []
  ("", r.2)

/-! ## Theorems about `breakDownARN` -/

/-- C8: for an identifier splitting into exactly 6 segments, `ResourceType`
is `None` and `Resource` is segment 6; for 7 or more segments,
`ResourceType` is segment 6 and `Resource` is segment 7 (segments counted
from 1, so segment k is index k-1 of the split). -/
theorem breakDownARN_resource_positions (arn : String) :
    ((arnSegments arn).length = 6 →
      (breakDownARN arn).ResourceType = none ∧
      (breakDownARN arn).Resource = (arnSegments arn).get? 5) ∧
    (7 ≤ (arnSegments arn).length →
      (breakDownARN arn).ResourceType = (arnSegments arn).get? 5 ∧
      (breakDownARN arn).Resource = (arnSegments arn).get? 6) := by
  simp only [breakDownARN]
  generalize arnSegments arn = parts
  constructor
  · intro h6
    rcases parts with _|⟨s1, _|⟨s2, _|⟨s3, _|⟨s4, _|⟨s5, _|⟨s6, _|⟨s7, rest⟩⟩⟩⟩⟩⟩⟩ <;>
      simp_all [tryFill]
  · intro h7
    rcases parts with _|⟨s1, _|⟨s2, _|⟨s3, _|⟨s4, _|⟨s5, _|⟨s6, _|⟨s7, rest⟩⟩⟩⟩⟩⟩⟩ <;>
      simp_all [tryFill]
    cases hq : rest[0]? <;> split <;> simp_all

/-- Witness for C8: `breakDownARN_resource_positions` applied to a concrete
6-segment identifier and a concrete 7-segment identifier. -/
theorem breakDownARN_resource_positions_witness :
    ((breakDownARN "arn:aws:s3:us-east-1:123:bkt").ResourceType = none ∧
      (breakDownARN "arn:aws:s3:us-east-1:123:bkt").Resource =
        (arnSegments "arn:aws:s3:us-east-1:123:bkt").get? 5) ∧
    ((breakDownARN "arn:aws:dynamodb:us-east-1:123:table:tbl").ResourceType =
        (arnSegments "arn:aws:dynamodb:us-east-1:123:table:tbl").get? 5 ∧
      (breakDownARN "arn:aws:dynamodb:us-east-1:123:table:tbl").Resource =
        (arnSegments "arn:aws:dynamodb:us-east-1:123:table:tbl").get? 6) :=
  ⟨(breakDownARN_resource_positions "arn:aws:s3:us-east-1:123:bkt").1 (by decide),
   (breakDownARN_resource_positions "arn:aws:dynamodb:us-east-1:123:table:tbl").2 (by decide)⟩

/-- Counterexample to C9 as stated: on the 4-segment input `"a:b:c:d"`,
`Partition` is segment 2 (`"b"`), not segment 1 (`"a"`), and `AccountId` is
not extracted at all (`none`) even though segment 4 (`"d"`) exists — so the
four fields are not `segments 1 through 4` of the split. -/
theorem breakDownARN_positional_fields_cex :
    (arnSegments "a:b:c:d").get? 0 = some "a" ∧
    (breakDownARN "a:b:c:d").Partition = some "b" ∧
    (arnSegments "a:b:c:d").get? 3 = some "d" ∧
    (breakDownARN "a:b:c:d").AccountId = none := by decide

/-- C9 (amended): for every identifier string with at least 5 segments,
`Partition`, `Service`, `Region` and `AccountId` are segments 2 through 5
of the split (indices 1-4); since the values are exactly those segments for
an arbitrary tail, the four fields do not depend on the content of
segment 6 or any later segment. -/
theorem breakDownARN_positional_fields (arn : String)
    (s1 s2 s3 s4 s5 : String) (rest : List String)
    (h : arnSegments arn = s1 :: s2 :: s3 :: s4 :: s5 :: rest) :
    (breakDownARN arn).Partition = some s2 ∧
    (breakDownARN arn).Service = some s3 ∧
    (breakDownARN arn).Region = some s4 ∧
    (breakDownARN arn).AccountId = some s5 := by
  simp only [breakDownARN, h, tryFill]
  rcases rest with _|⟨s6, _|⟨s7, _|⟨s8, rest⟩⟩⟩ <;> simp_all <;> split <;> simp_all

/-- Witness for C9 (amended): applied to a concrete 7-segment identifier. -/
theorem breakDownARN_positional_fields_witness :
    (breakDownARN "arn:aws:ec2:us-east-1:123:instance:i-0abc").Partition = some "aws" ∧
    (breakDownARN "arn:aws:ec2:us-east-1:123:instance:i-0abc").Service = some "ec2" ∧
    (breakDownARN "arn:aws:ec2:us-east-1:123:instance:i-0abc").Region = some "us-east-1" ∧
    (breakDownARN "arn:aws:ec2:us-east-1:123:instance:i-0abc").AccountId = some "123" :=
  breakDownARN_positional_fields "arn:aws:ec2:us-east-1:123:instance:i-0abc"
    "arn" "aws" "ec2" "us-east-1" "123" ["instance", "i-0abc"] (by decide)

/-- C10: an input splitting into fewer than 2 segments yields the dict with
every field `None` except `ARN`, which is the original input string; the
embedding is total, matching the source where the only possible raises sit
inside the blanket `try`/`except`. -/
theorem breakDownARN_short_input (arn : String)
    (h : (arnSegments arn).length < 2) :
    breakDownARN arn =
      { ARN := arn, Partition := none, Service := none, Region := none,
        AccountId := none, ResourceType := none, Resource := none,
        Qualifier := none } := by
  simp only [breakDownARN]
  generalize hp : arnSegments arn = parts at h
  rcases parts with _|⟨s1, _|⟨s2, t⟩⟩
  · rfl
  · rfl
  · simp only [List.length_cons] at h
    omega

/-- Witness for C10: applied to the 1-segment input `"hello"`. -/
theorem breakDownARN_short_input_witness :
    breakDownARN "hello" =
      { ARN := "hello", Partition := none, Service := none, Region := none,
        AccountId := none, ResourceType := none, Resource := none,
        Qualifier := none } :=
  breakDownARN_short_input "hello" (by decide)

/-! ## Theorems about `manageFleetDNS` -/

/-- C2: whatever record sets the DNS collaborator returns — matching A
record with addresses or not — `getIpAddressesFromRoute53Entry` returns the
empty list: the collecting loop iterates `resourceRecordSet`, which is
initialized to the empty dict and never reassigned (the match goes to the
unused `currentResourceRecordSet`). -/
theorem getIpAddressesFromRoute53Entry_eq_nil
    (currentRecordSets : List RecordSet) (hostRecordToMaintain : String) :
    getIpAddressesFromRoute53Entry currentRecordSets hostRecordToMaintain = [] :=
  rfl

/-- C7: for every environment, every collaborator behaviour (including any
call raising) and every event, the handler returns the empty string: the
bare `except` catches everything and `finally: return ""` is the only
return. The embedding is a total function, so no raise escapes. -/
theorem lambda_handler_always_returns_empty_string
    (env : Env) (c : Collab) (e : Event) :
    (lambda_handler env c e).1 = "" :=
  rfl

/-- C5: with no recognized event (the shape test evaluates to false), and a
fleet of members `m1`, `m2` resolving to addresses `a1`, `a2`, the
calls of the invocation are exactly: describe the group, look up both IPs, and
write the record set to exactly `[a1, a2]` — whatever the record sets
of the zone contain (the baseline path never reads them). -/
theorem baseline_writes_fleet_ips (env : Env) (c : Collab) (e : Event)
    (m1 m2 a1 a2 : String)
    (hrec : checkRecognized e = .ok false)
    (hmem : c.groupInstances env.autoscaleGroupName = .ok [m1, m2])
    (h1 : c.instanceIP m1 = .ok a1)
    (h2 : c.instanceIP m2 = .ok a2) :
    (lambda_handler env c e).2 =
      [AwsCall.describeGroup env.autoscaleGroupName,
       AwsCall.getIP m1, AwsCall.getIP m2,
       AwsCall.changeRecords env.route53ZoneId env.hostRecordToMaintain
         [a1, a2]] := by
  simp only [lambda_handler, tryBody, hrec, baselineIpAddressesInDNS, hmem,
    collectIPs, getIPofInstance, h1, h2, setDNSRecord, List.foldl_cons,
    List.foldl_nil, List.map, List.nil_append, List.cons_append,
    List.append_nil]
  rcases c.changeResult env.route53ZoneId env.hostRecordToMaintain [a1, a2]
    with _ | _ <;> simp

/-- A concrete environment used by the concrete-input theorems. -/
def envSample : Env :=
  { route53ZoneId := "Z1", hostRecordToMaintain := "host.example.com.",
    autoscaleGroupName := "grp" }

/-- Concrete collaborators for the baseline scenario: a fleet of `i-1`,
`i-2` with addresses `10.0.0.1`, `10.0.0.2`; every call succeeds. -/
def collabBaseline : Collab where
  instanceIP := fun i =>
    if i = "i-1" then .ok "10.0.0.1"
    else if i = "i-2" then .ok "10.0.0.2"
    else .error "no such instance"
  recordSets := fun _ =>
    .ok [{ Name := "host.example.com.", rsType := "A",
           ResourceRecords := [⟨"192.0.2.7"⟩] }]
  changeResult := fun _ _ _ => .ok ()
  groupInstances := fun _ => .ok ["i-1", "i-2"]
  completeResult := fun _ _ _ => .ok ()

/-- The empty trigger event `{}`: no keys at all. -/
def emptyEvent : Event :=
  { source := none, detailType := none, detail := none }

/-- An event with source `aws.autoscaling` but no `detail-type` (and no
`detail`) key. -/
def eventMissingDetailType : Event :=
  { source := some "aws.autoscaling", detailType := none, detail := none }

/-- Witness for C5: the baseline theorem applied to `envSample`,
`collabBaseline` and the empty event. -/
theorem baseline_writes_fleet_ips_witness :
    (lambda_handler envSample collabBaseline emptyEvent).2 =
      [AwsCall.describeGroup envSample.autoscaleGroupName,
       AwsCall.getIP "i-1", AwsCall.getIP "i-2",
       AwsCall.changeRecords envSample.route53ZoneId
         envSample.hostRecordToMaintain ["10.0.0.1", "10.0.0.2"]] :=
  baseline_writes_fleet_ips envSample collabBaseline emptyEvent
    "i-1" "i-2" "10.0.0.1" "10.0.0.2" rfl rfl rfl rfl

/-- Counterexample to C6 as stated: the event with source `aws.autoscaling`
but no `detail-type` key does not have the recognized shape, yet the
handler performs no external call at all — the `event["detail-type"]`
lookup raises `KeyError` before the shape test can come out false, so the
baseline rebuild is never invoked. -/
theorem handler_unrecognized_routes_to_baseline_cex :
    recognizedShapeB eventMissingDetailType = false ∧
    (lambda_handler envSample collabBaseline eventMissingDetailType).2 = [] :=
  ⟨rfl, rfl⟩

/-- C6 (amended): every trigger event on which the recognized-shape test
evaluates to false without raising — source absent or different from
`aws.autoscaling`, or a present detail-type different from the expected
one, or a present detail payload without `EC2InstanceId` — routes to
baseline reconciliation: the calls of the invocation are exactly those of
`baselineIpAddressesInDNS`. Events with source `aws.autoscaling` but a
missing `detail-type` (or matching detail-type and missing `detail`) key
instead raise a swallowed `KeyError` and invoke nothing. -/
theorem handler_unrecognized_routes_to_baseline (env : Env) (c : Collab)
    (e : Event) (h : checkRecognized e = .ok false) :
    (lambda_handler env c e).2 =
      (baselineIpAddressesInDNS c env.route53ZoneId env.hostRecordToMaintain
        env.autoscaleGroupName []).2 := by
  simp only [lambda_handler, tryBody, h]
  rcases hb : baselineIpAddressesInDNS c env.route53ZoneId
      env.hostRecordToMaintain env.autoscaleGroupName [] with ⟨_ | _, tr⟩ <;>
    simp

/-- Witness for C6 (amended): applied to the empty event, whose shape test
evaluates to false without raising. -/
theorem handler_unrecognized_routes_to_baseline_witness :
    (lambda_handler envSample collabBaseline emptyEvent).2 =
      (baselineIpAddressesInDNS collabBaseline envSample.route53ZoneId
        envSample.hostRecordToMaintain envSample.autoscaleGroupName []).2 :=
  handler_unrecognized_routes_to_baseline envSample collabBaseline emptyEvent
    rfl

/-- A recognized LAUNCHING lifecycle event for instance `i-new`. -/
def launchEvent : Event :=
  { source := some "aws.autoscaling",
    detailType := some "EC2 Instance-launch Lifecycle Action",
    detail := some
      { EC2InstanceId := some "i-new",
        LifecycleTransition := some "autoscaling:EC2_INSTANCE_LAUNCHING",
        LifecycleHookName := some "hook-1" } }

/-- A recognized TERMINATING lifecycle event for instance `i-old`. -/
def termEvent : Event :=
  { source := some "aws.autoscaling",
    detailType := some "EC2 Instance-launch Lifecycle Action",
    detail := some
      { EC2InstanceId := some "i-old",
        LifecycleTransition := some "autoscaling:EC2_INSTANCE_TERMINATING",
        LifecycleHookName := some "hook-1" } }

/-- Collaborators for the C1 scenario: the instance resolves to
`203.0.113.10`, the record set of the zone for the maintained host holds
`203.0.113.1` and `203.0.113.2`, the DNS write raises `AccessDenied`, and
`complete_lifecycle_action` would succeed if it were called. -/
def collabDNSWriteFails : Collab where
  instanceIP := fun _ => .ok "203.0.113.10"
  recordSets := fun _ =>
    .ok [{ Name := "host.example.com.", rsType := "A",
           ResourceRecords := [⟨"203.0.113.1"⟩, ⟨"203.0.113.2"⟩] }]
  changeResult := fun _ _ _ => .error "AccessDenied"
  groupInstances := fun _ => .ok []
  completeResult := fun _ _ _ => .ok ()

/-- C1 scenario (code bug): on the recognized LAUNCHING event, when the DNS
write raises, the calls of the invocation are exactly the instance lookup, the
record-set read and the failed write — `complete_lifecycle_action` never
appears: the raise jumps to the outer `except`, skipping
`resumeAutoscaleTransition` (line 201), so the transition is not
acknowledged. -/
theorem dns_write_failure_skips_acknowledgment :
    (lambda_handler envSample collabDNSWriteFails launchEvent).2 =
      [AwsCall.getIP "i-new", AwsCall.listRecords "Z1",
       AwsCall.changeRecords "Z1" "host.example.com." ["203.0.113.10"]] := by
  decide

/-- Collaborators for the C3 scenario: same zone contents
(`203.0.113.1`, `203.0.113.2` on the maintained host record), new instance
address `203.0.113.10`, every call succeeds. -/
def collabTwoAddrs : Collab where
  instanceIP := fun _ => .ok "203.0.113.10"
  recordSets := fun _ =>
    .ok [{ Name := "host.example.com.", rsType := "A",
           ResourceRecords := [⟨"203.0.113.1"⟩, ⟨"203.0.113.2"⟩] }]
  changeResult := fun _ _ _ => .ok ()
  groupInstances := fun _ => .ok []
  completeResult := fun _ _ _ => .ok ()

/-- C3 scenario (code bug): on the LAUNCHING event with current record set
`[203.0.113.1, 203.0.113.2]` and new address `203.0.113.10`, the handler
writes `[203.0.113.10]` alone — not the current list with the new address
appended — because `getIpAddressesFromRoute53Entry` returns `[]` for any
zone contents; the transition is acknowledged. -/
theorem launching_writes_only_new_ip :
    (lambda_handler envSample collabTwoAddrs launchEvent).2 =
      [AwsCall.getIP "i-new", AwsCall.listRecords "Z1",
       AwsCall.changeRecords "Z1" "host.example.com." ["203.0.113.10"],
       AwsCall.completeLifecycle "hook-1" "grp" "i-new"] := by
  decide

/-- Collaborators for the C4 scenario: the terminating instance resolves to
`203.0.113.1`, which is the first of the two addresses on the maintained
host record; every call succeeds. -/
def collabTermCase : Collab where
  instanceIP := fun _ => .ok "203.0.113.1"
  recordSets := fun _ =>
    .ok [{ Name := "host.example.com.", rsType := "A",
           ResourceRecords := [⟨"203.0.113.1"⟩, ⟨"203.0.113.2"⟩] }]
  changeResult := fun _ _ _ => .ok ()
  groupInstances := fun _ => .ok []
  completeResult := fun _ _ _ => .ok ()

/-- C4 scenario (code bug): on the TERMINATING event with current record
set `[203.0.113.1, 203.0.113.2]` and terminating address `203.0.113.1`,
the invocation stops after the instance lookup and the record-set read:
`getIpAddressesFromRoute53Entry` returns `[]`, so
`ipAddresses.remove(...)` raises `ValueError` — no record set is written
(nothing is removed) and the transition is not acknowledged. -/
theorem terminating_removal_raises_and_writes_nothing :
    (lambda_handler envSample collabTermCase termEvent).2 =
      [AwsCall.getIP "i-old", AwsCall.listRecords "Z1"] := by
  decide
